import Mathlib

/-!
Shallow embedding of the `crp_report_generator` pipeline
(`src/report.py`: the `ClassUsageReporter` aggregator;
`src/graph.py`: the chart/report renderer).

Conventions of the embedding:
* pandas float cells are modelled by `PVal` (`nan`, `inf`, or an exact
  rational `val q`); pandas element-wise division produces `nan` for 0/0
  and `inf` for x/0 with x ≠ 0, and `fillna(0)` replaces only `nan`;
* `Series.round(2)` uses round-half-to-even, modelled exactly by `round2`;
* CSV rows are records; the `astype(str)` casts in `report.py` are
  reflected by taking `employee_id` to be a string in every table;
* `groupby(k)` (with pandas' default `sort=True`) lists the distinct keys
  in ascending lexicographic order of their code points;
* `sort_values(col, ascending=False)` is pandas `nargsort`: an ascending
  argsort followed by reversal of the indexer.  numpy's sort on the small
  frames involved is its stable insertion-sort path, so the embedding uses
  a stable ascending insertion sort followed by `List.reverse`;
* `nlargest(n, col)` keeps first occurrences on ties: a stable descending
  sort followed by `take n`;
* dictionary accesses performed by the renderer are modelled by lookups
  into the literal key sets of the dictionaries that `report.py` builds,
  so that a `KeyError` is an `Except.error`.
-/

/-- A pandas float cell: `NaN`, `inf`, or an exact rational value. -/
inductive PVal where
  | nan : PVal
  | inf : PVal
  | val : ℚ → PVal
deriving DecidableEq, Repr

/-- Floor of a rational, computed on the numerator/denominator pair. -/
def ratFloor (q : ℚ) : ℤ := Int.fdiv q.num q.den

/-- Round-half-to-even to an integer, as numpy/pandas rounding does. -/
def rhe (q : ℚ) : ℤ :=
  let f : ℤ := ratFloor q
  let r : ℚ := q - f
  if r < 1/2 then f
  else if 1/2 < r then f + 1
  else if f % 2 = 0 then f else f + 1

/-- Pandas `Series.round(2)`: round-half-to-even at the second decimal place. -/
def round2 (q : ℚ) : ℚ := (rhe (q * 100) : ℚ) / 100

/-- pandas element-wise division: `0/0 = NaN`, `x/0 = inf` for `x ≠ 0`. -/
def pdDiv (a b : ℚ) : PVal :=
  if b = 0 then (if a = 0 then .nan else .inf) else .val (a / b)

/-- Multiplication of a float cell by the scalar 100 (`* 100`). -/
def PVal.scale100 : PVal → PVal
  | .nan => .nan
  | .inf => .inf
  | .val q => .val (q * 100)

/-- Pandas `Series.round(2)` on a float cell; `NaN.round()` is `NaN`. -/
def PVal.round2p : PVal → PVal
  | .nan => .nan
  | .inf => .inf
  | .val q => .val (round2 q)

/-- Pandas `fillna(0)`: replaces `NaN` (and only `NaN`) by 0. -/
def PVal.fillna0 : PVal → PVal
  | .nan => .val 0
  | .inf => .inf
  | .val q => .val q

/-- A row of `Past_Classes.csv` after `read_csv` (the columns the
aggregator uses; timestamps are rationals measured in minutes). -/
structure PastClass where
  id : Nat
  course_code : String
  employee_id : String
  entry_type : String
  start_time : ℚ
  end_time : ℚ
deriving DecidableEq, Repr

/-- A row of `Missed_Classes.csv` (the columns the aggregator uses). -/
structure MissedClass where
  id : Nat
  course_code : String
  employee_id : String
  makeup_done : Bool
deriving DecidableEq, Repr

/-- A row of `Teachers.csv` (the columns the aggregator uses). -/
structure Teacher where
  employee_id : String
  first_name : String
  last_name : String
deriving DecidableEq, Repr

/-- Code-point lexicographic order on character lists. -/
def lexLt : List Char → List Char → Bool
  | [], [] => false
  | [], _ :: _ => true
  | _ :: _, [] => false
  | a :: as, b :: bs =>
    if a.toNat < b.toNat then true
    else if b.toNat < a.toNat then false
    else lexLt as bs

/-- Lexicographic order on strings (pandas sorts object keys this way). -/
def strLt (a b : String) : Bool := lexLt a.data b.data

/-- Stable insertion of `x` into `l`: `x` goes in front of the first
element `y` with `le x y`. -/
def insLe (le : α → α → Bool) (x : α) : List α → List α
  | [] => [x]
  | y :: ys => if le x y then x :: y :: ys else y :: insLe le x ys

/-- Stable insertion sort by the boolean relation `le`. -/
def isort (le : α → α → Bool) : List α → List α
  | [] => []
  | x :: xs => insLe le x (isort le xs)

/-- Pandas `sort_values(key, ascending=False)` per `nargsort`: stable
ascending sort, then reversal of the indexer. -/
def pdSortDesc [LinearOrder β] (key : α → β) (l : List α) : List α :=
  (isort (fun a b => decide (key a ≤ key b)) l).reverse

/-- Pandas `nlargest(n, key)`: descending with first occurrences kept on ties. -/
def nlargestBy [LinearOrder β] (key : α → β) (n : Nat) (l : List α) : List α :=
  (isort (fun a b => decide (key b ≤ key a)) l).take n

/-- Distinct elements of a list, first occurrences kept (pandas order of
appearance for `value_counts` groups); `seen` accumulates the values
already emitted. -/
def firstDedupAux [DecidableEq α] (seen : List α) : List α → List α
  | [] => []
  | a :: l =>
    if a ∈ seen then firstDedupAux seen l
    else a :: firstDedupAux (a :: seen) l

/-- Distinct elements of a list, first occurrences kept. -/
def firstDedup [DecidableEq α] (l : List α) : List α := firstDedupAux [] l

/-- The distinct keys of a `groupby` in ascending order (`sort=True`). -/
def groupKeys (l : List String) : List String :=
  isort (fun a b => !(strLt b a)) (firstDedup l)

/-- Pandas `value_counts()` over a column: distinct values with their counts,
sorted descending by count. -/
def valueCounts (l : List String) : List (String × Nat) :=
  pdSortDesc (fun p => p.2)
    ((firstDedup l).map (fun v => (v, l.countP (fun x => x == v))))

/-- One record of `all_courses` (`_past_classes_analysis`, the frame built
at report.py lines 67-76: columns `course_code`, `class_count`,
`avg_duration`). -/
structure CourseRow where
  course_code : String
  class_count : Nat
  avg_duration : PVal
deriving DecidableEq, Repr

/-- The `past_classes` section of the aggregate document
(`_past_classes_analysis`, report.py lines 52-89). -/
structure PastReport where
  total_classes : Nat
  late_classes : Nat
  on_time_classes : Nat
  late_percentage : ℚ
  entry_type_distribution : List (String × Nat)
  all_courses : List CourseRow
deriving DecidableEq, Repr

/-- The duration of one session in minutes (`end_time - start_time`). -/
def PastClass.duration (r : PastClass) : ℚ := r.end_time - r.start_time

/-- The `all_courses` record of one `groupby('course_code')` group:
count of `id` and mean duration in minutes, rounded to 2 decimals. -/
def courseRow (past : List PastClass) (k : String) : CourseRow :=
  let grp := past.filter (fun r => r.course_code == k)
  { course_code := k
    class_count := grp.length
    avg_duration := PVal.round2p
      (pdDiv ((grp.map PastClass.duration).sum) (grp.length : ℚ)) }

/-- Embedding of `_past_classes_analysis` (report.py lines 52-89). -/
def pastClassesAnalysis (past : List PastClass) : PastReport :=
  let total := past.length
  let late := past.countP (fun r => r.entry_type == "late")
  { total_classes := total
    late_classes := late
    on_time_classes := past.countP (fun r => r.entry_type == "on_time")
    late_percentage := if total > 0 then ((late : ℚ) / (total : ℚ)) * 100 else 0
    entry_type_distribution := valueCounts (past.map PastClass.entry_type)
    all_courses :=
      pdSortDesc (fun c => c.class_count)
        ((groupKeys (past.map PastClass.course_code)).map (courseRow past)) }

/-- One record of `teachers_with_most_missed`: a
`groupby('employee_id')` row of the roster-filtered missed classes,
merged (inner) with the roster names (report.py lines 104-122). -/
structure MissedTeacherRow where
  employee_id : String
  first_name : String
  last_name : String
  missed_count : Nat
  makeup_done : Nat
  makeup_percentage : PVal
deriving DecidableEq, Repr

/-- The `missed_classes` section of the aggregate document
(`_missed_classes_analysis`, report.py lines 91-133). -/
structure MissedReport where
  total_missed_classes : Nat
  makeup_classes : Nat
  makeup_percentage : ℚ
  missed_classes_by_course : List (String × Nat)
  teachers_with_most_missed : List MissedTeacherRow
deriving DecidableEq, Repr

/-- The missed classes whose `employee_id` is in the roster
(report.py lines 100-102). -/
def validMissed (missed : List MissedClass) (teachers : List Teacher) :
    List MissedClass :=
  missed.filter (fun m => teachers.any (fun t => t.employee_id == m.employee_id))

/-- The per-teacher missed-class groupby rows merged with roster names
(report.py lines 105-122); `makeup_done.sum()` counts `True` cells. -/
def teacherMissedRows (missed : List MissedClass) (teachers : List Teacher) :
    List MissedTeacherRow :=
  let vm := validMissed missed teachers
  (groupKeys (vm.map MissedClass.employee_id)).flatMap (fun k =>
    let grp := vm.filter (fun m => m.employee_id == k)
    let mk := grp.countP MissedClass.makeup_done
    (teachers.filter (fun t => t.employee_id == k)).map (fun t =>
      { employee_id := k
        first_name := t.first_name
        last_name := t.last_name
        missed_count := grp.length
        makeup_done := mk
        makeup_percentage :=
          PVal.round2p (PVal.scale100 (pdDiv (mk : ℚ) (grp.length : ℚ))) }))

/-- Embedding of `_missed_classes_analysis` (report.py lines 91-133). -/
def missedClassesAnalysis (missed : List MissedClass)
    (teachers : List Teacher) : MissedReport :=
  let vm := validMissed missed teachers
  let mk := vm.countP MissedClass.makeup_done
  { total_missed_classes := vm.length
    makeup_classes := mk
    makeup_percentage :=
      if vm.length > 0 then ((mk : ℚ) / (vm.length : ℚ)) * 100 else 0
    missed_classes_by_course := valueCounts (vm.map MissedClass.course_code)
    teachers_with_most_missed :=
      nlargestBy MissedTeacherRow.missed_count 10
        (teacherMissedRows missed teachers) }

/-- One record of `all_teachers_metrics` (`_teacher_usage_analysis`,
report.py lines 144-178): the left join of the roster with both groupby
frames, `fillna(0)` applied, percentages computed and `fillna(0)`-ed. -/
structure TeacherRow where
  employee_id : String
  first_name : String
  last_name : String
  total_classes : Nat
  late_classes : Nat
  missed_classes : Nat
  makeup_classes : Nat
  late_percentage : PVal
  makeup_percentage : PVal
deriving DecidableEq, Repr

/-- The `total_summary` of the teacher-usage section (report.py 184-190). -/
structure TotalSummary where
  total_teachers : Nat
  total_classes : Nat
  total_late_classes : Nat
  total_missed_classes : Nat
  total_makeup_classes : Nat
deriving DecidableEq, Repr

/-- The `teacher_usage` section of the aggregate document
(`_teacher_usage_analysis`, report.py lines 135-200). -/
structure TeacherUsageReport where
  total_summary : TotalSummary
  all_teachers_metrics : List TeacherRow
deriving DecidableEq, Repr

/-- The `past_classes.groupby('employee_id')` frame of report.py
lines 148-152: key, `id` count, count of late entries. -/
def pastMetrics (past : List PastClass) : List (String × Nat × Nat) :=
  (groupKeys (past.map PastClass.employee_id)).map (fun k =>
    (k, (past.filter (fun r => r.employee_id == k)).length,
        past.countP (fun r => r.employee_id == k && r.entry_type == "late")))

/-- The `missed_classes.groupby('employee_id')` frame of report.py
lines 155-159: key, `id` count, `makeup_done` sum. -/
def missedMetrics (missed : List MissedClass) : List (String × Nat × Nat) :=
  (groupKeys (missed.map MissedClass.employee_id)).map (fun k =>
    (k, (missed.filter (fun r => r.employee_id == k)).length,
        missed.countP (fun r => r.employee_id == k && r.makeup_done)))

/-- One left-join row of report.py lines 162-178 for roster teacher `t`:
missing matches become `NaN` and are `fillna(0)`-ed, then the two
percentage columns are computed, rounded and `fillna(0)`-ed. -/
def teacherRow (past : List PastClass) (missed : List MissedClass)
    (t : Teacher) : TeacherRow :=
  let pm := (List.lookup t.employee_id (pastMetrics past)).getD (0, 0)
  let mm := (List.lookup t.employee_id (missedMetrics missed)).getD (0, 0)
  { employee_id := t.employee_id
    first_name := t.first_name
    last_name := t.last_name
    total_classes := pm.1
    late_classes := pm.2
    missed_classes := mm.1
    makeup_classes := mm.2
    late_percentage :=
      PVal.fillna0 (PVal.round2p (PVal.scale100 (pdDiv (pm.2 : ℚ) (pm.1 : ℚ))))
    makeup_percentage :=
      PVal.fillna0 (PVal.round2p (PVal.scale100 (pdDiv (mm.2 : ℚ) (mm.1 : ℚ)))) }

/-- The `all_teachers_metrics` list: the joined frame sorted descending by
`total_classes` (report.py line 181). -/
def allTeachersMetrics (past : List PastClass) (missed : List MissedClass)
    (teachers : List Teacher) : List TeacherRow :=
  pdSortDesc TeacherRow.total_classes
    (teachers.map (teacherRow past missed))

/-- Embedding of `_teacher_usage_analysis` (report.py lines 135-200). -/
def teacherUsageAnalysis (past : List PastClass) (missed : List MissedClass)
    (teachers : List Teacher) : TeacherUsageReport :=
  let m := allTeachersMetrics past missed teachers
  { total_summary :=
      { total_teachers := m.length
        total_classes := (m.map TeacherRow.total_classes).sum
        total_late_classes := (m.map TeacherRow.late_classes).sum
        total_missed_classes := (m.map TeacherRow.missed_classes).sum
        total_makeup_classes := (m.map TeacherRow.makeup_classes).sum }
    all_teachers_metrics := m }

/-- The aggregate document (`comprehensive_report`, report.py 36-40). -/
structure Report where
  past_classes : PastReport
  missed_classes : MissedReport
  teacher_usage : TeacherUsageReport
deriving DecidableEq, Repr

/-- The aggregate document computed by `generate_comprehensive_report`
(report.py lines 30-40). -/
def comprehensiveReport (past : List PastClass) (missed : List MissedClass)
    (teachers : List Teacher) : Report :=
  { past_classes := pastClassesAnalysis past
    missed_classes := missedClassesAnalysis missed teachers
    teacher_usage := teacherUsageAnalysis past missed teachers }

/-- Keys of the `past_classes` dictionary literal (report.py 82-89). -/
def pastClassesKeys : List String :=
  ["total_classes", "late_classes", "on_time_classes", "late_percentage",
   "entry_type_distribution", "all_courses"]

/-- Keys of the `missed_classes` dictionary literal (report.py 124-133). -/
def missedClassesKeys : List String :=
  ["total_missed_classes", "makeup_classes", "makeup_percentage",
   "missed_classes_by_course", "teachers_with_most_missed"]

/-- Keys of the `teacher_usage` dictionary literal (report.py 183-200). -/
def teacherUsageKeys : List String :=
  ["total_summary", "all_teachers_metrics", "columns_description"]

/-- Columns of the `all_courses` records (report.py line 74). -/
def courseRecordKeys : List String :=
  ["course_code", "class_count", "avg_duration"]

/-- A Python dictionary access `d[k]` against the literal key set `keys`:
a missing key raises `KeyError`. -/
def dictGet (keys : List String) (k : String) : Except String Unit :=
  if k ∈ keys then .ok () else .error ("KeyError: " ++ k)

/-- Embedding of `_create_visualizations` (report.py lines 202-253): the sequence
of dictionary accesses it performs: `report['teacher_usage']
['usage_breakdown']` (line 214), `report['past_classes']['top_courses']`
(line 224), `report['past_classes']['entry_type_distribution']`
(line 233).  The subsequent plotting calls are reached only when every
access succeeds. -/
def createVisualizations (_r : Report) : Except String Unit := do
  dictGet teacherUsageKeys "usage_breakdown"
  dictGet pastClassesKeys "top_courses"
  dictGet pastClassesKeys "entry_type_distribution"
  .ok ()

/-- The observable outcome of `generate_comprehensive_report`
(report.py lines 20-50): the aggregate document, the files written into
the output directory, and whether the visualization step raised. -/
structure AggOutput where
  report : Report
  files : List String
  vizResult : Except String Unit
deriving Repr

/-- Embedding of `generate_comprehensive_report` (report.py 20-50): the JSON
document is written first (line 44), then `_create_visualizations` runs;
the chart image is saved only if no access raises. -/
def generateComprehensiveReport (past : List PastClass)
    (missed : List MissedClass) (teachers : List Teacher) : AggOutput :=
  let r := comprehensiveReport past missed teachers
  match createVisualizations r with
  | .ok _ =>
      { report := r
        files := ["comprehensive_report.json", "usage_visualization.png"]
        vizResult := .ok () }
  | .error e =>
      { report := r, files := ["comprehensive_report.json"], vizResult := .error e }

/-- One step of the renderer: given the loaded aggregate document and the
files already present in the output directory, it either writes some new
files or raises. -/
def RStep : Type := Report → List String → Except String (List String)

/-- The `try` body of `generate_all_plots` (graph.py lines 399-412): run
the steps in order, accumulating written files; the first exception stops
the run, is caught, and its message is reported (`Option String`).  Files
already written stay on disk. -/
def runSteps : List RStep → Report → List String → List String × Option String
  | [], _, acc => (acc, none)
  | s :: rest, r, acc =>
    match s r acc with
    | .error e => (acc, some e)
    | .ok fs => runSteps rest r (acc ++ fs)

/-- Step `setup_plot_style` (graph.py 26-28): writes nothing. -/
def setupPlotStyle : RStep := fun _ _ => .ok []

/-- Step `plot_class_distribution` (graph.py 36-48): indexes the
`entry_type_distribution` dictionary at `on_time`, `late` and
`EXTRA_CLASS`; a missing entry type raises `KeyError`. -/
def plotClassDistribution : RStep := fun r _ =>
  let d := r.past_classes.entry_type_distribution
  match d.lookup "on_time", d.lookup "late", d.lookup "EXTRA_CLASS" with
  | some _, some _, some _ => .ok ["class_distribution.png"]
  | none, _, _ => .error "KeyError: on_time"
  | some _, none, _ => .error "KeyError: late"
  | some _, some _, none => .error "KeyError: EXTRA_CLASS"

/-- Step `plot_top_courses` (graph.py 50-60): `pd.DataFrame` of an empty
record list has no columns, so `nlargest(10, 'class_count')` raises. -/
def plotTopCourses : RStep := fun r _ =>
  if r.past_classes.all_courses = [] then .error "KeyError: class_count"
  else .ok ["top_10_courses.png"]

/-- Step `plot_course_durations` (graph.py 62-85): selects the column
`class_type` from the `all_courses` frame; the aggregate document's
course records only carry `courseRecordKeys`, so this raises. -/
def plotCourseDurations : RStep := fun _ _ => do
  dictGet courseRecordKeys "class_type"
  .ok ["course_durations.png"]

/-- Step `plot_ontime_vs_late` (graph.py 87-96): reads keys that exist. -/
def plotOntimeVsLate : RStep := fun _ _ => do
  dictGet pastClassesKeys "total_classes"
  dictGet pastClassesKeys "on_time_classes"
  dictGet pastClassesKeys "late_classes"
  .ok ["ontime_vs_late.png"]

/-- Step `plot_top_teachers` (graph.py 98-108): an empty metrics list gives a
column-less frame, so `nlargest(10, 'total_classes')` raises. -/
def plotTopTeachers : RStep := fun r _ =>
  if r.teacher_usage.all_teachers_metrics = [] then
    .error "KeyError: total_classes"
  else .ok ["top_teachers.png"]

/-- Step `plot_most_missed_classes` (graph.py 110-119): an empty
`teachers_with_most_missed` list gives a column-less frame and seaborn
cannot resolve `first_name`. -/
def plotMostMissedClasses : RStep := fun r _ =>
  if r.missed_classes.teachers_with_most_missed = [] then
    .error "ValueError: first_name"
  else .ok ["most_missed_classes.png"]

/-- Step `generate_teacher_table` (graph.py 121-178): sorts the metrics frame
by `total_classes` (column-less when the list is empty) and writes the
table document. -/
def generateTeacherTableStep : RStep := fun r _ =>
  if r.teacher_usage.all_teachers_metrics = [] then
    .error "KeyError: total_classes"
  else .ok ["teacher_metrics.pdf"]

/-- Step `generate_final_report` (graph.py 180-397), as the sequence of
accesses it performs: the executive-summary f-string (lines 276-308)
indexes `entry_type_distribution` at `on_time`, `late`, `EXTRA_CLASS`,
indexes `all_courses[0]` and `all_teachers_metrics[0]`, and reads
`data['past_classes']['average_durations']` (line 289) — a key the
aggregate document does not contain; afterwards `doc.build` opens every
embedded chart image, among them `daily_classes_trend.png` (line 326),
which no step of graph.py ever writes. -/
def generateFinalReportStep : RStep := fun r acc => do
  let d := r.past_classes.entry_type_distribution
  match d.lookup "on_time", d.lookup "late", d.lookup "EXTRA_CLASS" with
  | some _, some _, some _ => Except.ok ()
  | none, _, _ => Except.error "KeyError: on_time"
  | some _, none, _ => Except.error "KeyError: late"
  | some _, some _, none => Except.error "KeyError: EXTRA_CLASS"
  match r.past_classes.all_courses with
  | [] => Except.error "IndexError: list index out of range"
  | _ :: _ => Except.ok ()
  dictGet pastClassesKeys "average_durations"
  match r.teacher_usage.all_teachers_metrics with
  | [] => Except.error "IndexError: list index out of range"
  | _ :: _ => Except.ok ()
  let images := ["class_distribution.png", "ontime_vs_late.png",
    "daily_classes_trend.png", "top_10_courses.png", "course_durations.png",
    "top_teachers.png", "most_missed_classes.png"]
  match images.find? (fun f => !(acc.contains f)) with
  | some f => Except.error ("Cannot open resource " ++ f)
  | none => Except.ok ()
  .ok ["final_report.pdf"]

/-- The renderer's step list, in the call order of `generate_all_plots`
(graph.py lines 399-412). -/
def rendererSteps : List RStep :=
  [setupPlotStyle, plotClassDistribution, plotTopCourses,
   plotCourseDurations, plotOntimeVsLate, plotTopTeachers,
   plotMostMissedClasses, generateTeacherTableStep, generateFinalReportStep]

/-- Embedding of `generate_all_plots` (graph.py 399-412) on a loaded document. -/
def generateAllPlots (r : Report) : List String × Option String :=
  runSteps rendererSteps r []

/-- One body row of the rendered instructor table (graph.py 137-150 and
358-379), kept as the numeric cell values before string formatting:
index/name columns aside, the cells are `total_classes`, `late_classes`,
`missed_classes` and the late percentage. -/
structure TableRow where
  name : String
  total_classes : Nat
  late_classes : Nat
  missed_classes : Nat
  late_percentage : PVal
deriving DecidableEq, Repr

/-- The individual rows of the instructor table: the metrics frame sorted
descending by `total_classes` (graph.py lines 123 and 137-145). -/
def tableIndividualRows (rows : List TeacherRow) : List TableRow :=
  (pdSortDesc TeacherRow.total_classes rows).map (fun r =>
    { name := r.first_name ++ " " ++ r.last_name
      total_classes := r.total_classes
      late_classes := r.late_classes
      missed_classes := r.missed_classes
      late_percentage := r.late_percentage })

/-- The `TOTAL` row appended to the instructor table (graph.py 146-150
and 375-379): column sums over the sorted frame, and
`late_classes.sum() / total_classes.sum() * 100` for the percentage. -/
def tableTotalsRow (rows : List TeacherRow) : TableRow :=
  let df := pdSortDesc TeacherRow.total_classes rows
  { name := "TOTAL"
    total_classes := (df.map TeacherRow.total_classes).sum
    late_classes := (df.map TeacherRow.late_classes).sum
    missed_classes := (df.map TeacherRow.missed_classes).sum
    late_percentage :=
      PVal.scale100 (pdDiv ((df.map TeacherRow.late_classes).sum : ℚ)
        ((df.map TeacherRow.total_classes).sum : ℚ)) }

/-- The body of the rendered instructor table: the individual rows
followed by the appended `TOTAL` row (graph.py lines 137-150). -/
def teacherTableRows (rows : List TeacherRow) : List TableRow :=
  tableIndividualRows rows ++ [tableTotalsRow rows]

theorem insLe_perm (le : α → α → Bool) (x : α) (l : List α) :
    (insLe le x l).Perm (x :: l) := by
  induction l with
  | nil => exact List.Perm.refl _
  | cons y ys ih =>
    simp only [insLe]
    by_cases h : le x y = true
    · simp [h]
    · simp only [h, if_false]
      exact (ih.cons y).trans (List.Perm.swap x y ys)

theorem isort_perm (le : α → α → Bool) (l : List α) :
    (isort le l).Perm l := by
  induction l with
  | nil => exact List.Perm.refl _
  | cons x xs ih =>
    exact (insLe_perm le x (isort le xs)).trans (ih.cons x)

theorem pdSortDesc_perm [LinearOrder β] (key : α → β) (l : List α) :
    (pdSortDesc key l).Perm l := by
  exact (List.reverse_perm _).trans (isort_perm _ l)

theorem insLe_pairwise (le : α → α → Bool) {R : α → α → Prop}
    (total : ∀ a b, le a b = true ∨ le b a = true)
    (htr : ∀ a b c, le a b = true → le b c = true → le a c = true)
    {x : α} {l : List α}
    (hl : l.Pairwise (fun a b => le a b = true ∧ (le b a = true → R a b)))
    (hle : l.Pairwise (fun a b => le a b = true))
    (hx : ∀ y ∈ l, R x y) :
    (insLe le x l).Pairwise (fun a b => le a b = true ∧ (le b a = true → R a b)) := by
  induction l with
  | nil => simp [insLe]
  | cons y ys ih =>
    simp only [insLe]
    by_cases h : le x y = true
    · rw [if_pos h]
      refine List.pairwise_cons.mpr ⟨?_, hl⟩
      intro z hz
      rcases List.mem_cons.mp hz with rfl | hz
      · exact ⟨h, fun _ => hx z (by simp)⟩
      · have hyz : le y z = true := (List.pairwise_cons.mp hle).1 z hz
        exact ⟨htr x y z h hyz, fun _ => hx z (by simp [hz])⟩
    · simp only [h, if_false]
      have hyx : le y x = true := (total x y).resolve_left h
      refine List.pairwise_cons.mpr ⟨?_, ?_⟩
      · intro z hz
        have hz' : z = x ∨ z ∈ ys := by
          have := (insLe_perm le x ys).mem_iff.mp hz
          simpa using this
        rcases hz' with rfl | hz'
        · exact ⟨hyx, fun hxy => absurd hxy h⟩
        · exact (List.pairwise_cons.mp hl).1 z hz'
      · exact ih (List.pairwise_cons.mp hl).2 (List.pairwise_cons.mp hle).2
          (fun y hy => hx y (by simp [hy]))

theorem isort_pairwise_tie (le : α → α → Bool) {R : α → α → Prop}
    (total : ∀ a b, le a b = true ∨ le b a = true)
    (htr : ∀ a b c, le a b = true → le b c = true → le a c = true)
    {l : List α} (hR : l.Pairwise R) :
    (isort le l).Pairwise (fun a b => le a b = true ∧ (le b a = true → R a b)) := by
  induction l with
  | nil => simp [isort]
  | cons x xs ih =>
    have hxs := ih (List.pairwise_cons.mp hR).2
    refine insLe_pairwise le total htr hxs (hxs.imp (fun h => h.1)) ?_
    intro y hy
    exact (List.pairwise_cons.mp hR).1 y ((isort_perm le xs).mem_iff.mp hy)

theorem isort_pairwise (le : α → α → Bool)
    (total : ∀ a b, le a b = true ∨ le b a = true)
    (htr : ∀ a b c, le a b = true → le b c = true → le a c = true)
    (l : List α) :
    (isort le l).Pairwise (fun a b => le a b = true) := by
  have h := isort_pairwise_tie le total htr
    (R := fun _ _ => True) (l := l) (by
      exact List.pairwise_iff_forall_sublist.mpr (fun _ => trivial))
  exact h.imp (fun h => h.1)

theorem lexLt_asymm : ∀ {a b : List Char},
    lexLt a b = true → lexLt b a = false
  | [], [] => by simp [lexLt]
  | [], _ :: _ => by simp [lexLt]
  | _ :: _, [] => by simp [lexLt]
  | a :: as, b :: bs => by
    simp only [lexLt]
    rcases Nat.lt_trichotomy a.toNat b.toNat with h | h | h
    · simp [h, Nat.lt_asymm h]
    · simp only [h, Nat.lt_irrefl, if_false]
      exact lexLt_asymm
    · simp [h, Nat.lt_asymm h]

theorem lexLt_connex : ∀ {a b : List Char},
    lexLt a b = false → lexLt b a = false → a = b
  | [], [] => by simp
  | [], _ :: _ => by simp [lexLt]
  | _ :: _, [] => by simp [lexLt]
  | a :: as, b :: bs => by
    simp only [lexLt]
    rcases Nat.lt_trichotomy a.toNat b.toNat with h | h | h
    · simp [h]
    · simp only [h, Nat.lt_irrefl, if_false]
      intro h1 h2
      have hab : a = b := by
        unfold Char.toNat UInt32.toNat at h
        exact Char.eq_of_val_eq (UInt32.eq_of_val_eq (Fin.eq_of_val_eq h))
      rw [hab, lexLt_connex h1 h2]
    · simp [h, Nat.lt_asymm h]

theorem lexLt_trans : ∀ {a b c : List Char},
    lexLt a b = true → lexLt b c = true → lexLt a c = true
  | [], [], _ => by simp [lexLt]
  | [], _ :: _, [] => by simp [lexLt]
  | [], _ :: _, _ :: _ => by simp [lexLt]
  | _ :: _, [], _ => by simp [lexLt]
  | a :: as, b :: bs, [] => by simp [lexLt]
  | a :: as, b :: bs, c :: cs => by
    simp only [lexLt]
    rcases Nat.lt_trichotomy a.toNat b.toNat with h | h | h
    · rcases Nat.lt_trichotomy b.toNat c.toNat with h2 | h2 | h2
      · simp [Nat.lt_trans h h2]
      · simp [h2 ▸ h]
      · simp [h, Nat.lt_asymm h2, h2]
    · rcases Nat.lt_trichotomy b.toNat c.toNat with h2 | h2 | h2
      · simp [h ▸ h2]
      · have hac : a.toNat = c.toNat := h.trans h2
        simp only [h, h2, hac, Nat.lt_irrefl, if_false]
        exact lexLt_trans
      · simp [h, Nat.lt_asymm h2, h2, h ▸ h2]
    · simp [Nat.lt_asymm h, h]

theorem strLt_asymm {a b : String} (h : strLt a b = true) :
    strLt b a = false := lexLt_asymm h

theorem strLt_connex {a b : String} (h1 : strLt a b = false)
    (h2 : strLt b a = false) : a = b := by
  have hd : a.data = b.data := lexLt_connex h1 h2
  cases a; cases b; simp_all

theorem strLt_trans {a b c : String} (h1 : strLt a b = true)
    (h2 : strLt b c = true) : strLt a c = true := lexLt_trans h1 h2

theorem mem_firstDedupAux [DecidableEq α] :
    ∀ (l seen : List α) (a : α),
    a ∈ firstDedupAux seen l ↔ a ∈ l ∧ a ∉ seen
  | [], seen, a => by simp [firstDedupAux]
  | x :: l, seen, a => by
    simp only [firstDedupAux]
    by_cases hx : x ∈ seen
    · rw [if_pos hx, mem_firstDedupAux l seen a]
      constructor
      · rintro ⟨h1, h2⟩
        exact ⟨List.mem_cons.mpr (Or.inr h1), h2⟩
      · rintro ⟨h1, h2⟩
        rcases List.mem_cons.mp h1 with rfl | h1
        · exact absurd hx h2
        · exact ⟨h1, h2⟩
    · rw [if_neg hx]
      simp only [List.mem_cons, mem_firstDedupAux l (x :: seen) a]
      constructor
      · rintro (rfl | ⟨h1, h2⟩)
        · exact ⟨Or.inl rfl, hx⟩
        · exact ⟨Or.inr h1, fun hs => h2 (Or.inr hs)⟩
      · rintro ⟨h1 | h1, h2⟩
        · exact Or.inl h1
        · by_cases hax : a = x
          · exact Or.inl hax
          · exact Or.inr ⟨h1, by simp [hax, h2]⟩

theorem mem_firstDedup [DecidableEq α] (l : List α) (a : α) :
    a ∈ firstDedup l ↔ a ∈ l := by
  rw [firstDedup, mem_firstDedupAux]
  simp

theorem nodup_firstDedupAux [DecidableEq α] :
    ∀ (l seen : List α), (firstDedupAux seen l).Nodup
  | [], seen => by simp [firstDedupAux]
  | x :: l, seen => by
    simp only [firstDedupAux]
    by_cases hx : x ∈ seen
    · rw [if_pos hx]
      exact nodup_firstDedupAux l seen
    · rw [if_neg hx]
      refine List.nodup_cons.mpr ⟨?_, nodup_firstDedupAux l (x :: seen)⟩
      intro hmem
      exact ((mem_firstDedupAux l (x :: seen) x).mp hmem).2 (by simp)

theorem nodup_firstDedup [DecidableEq α] (l : List α) :
    (firstDedup l).Nodup := nodup_firstDedupAux l []
theorem mem_groupKeys {l : List String} {a : String} :
    a ∈ groupKeys l ↔ a ∈ l := by
  rw [groupKeys, (isort_perm _ _).mem_iff, mem_firstDedup]

theorem groupKeys_total : ∀ a b : String,
    (!(strLt b a)) = true ∨ (!(strLt a b)) = true := by
  intro a b
  by_cases h : strLt b a = true
  · right
    simp [strLt_asymm h]
  · left
    simp [Bool.eq_false_iff.mpr h]

theorem groupKeys_letrans : ∀ a b c : String,
    (!(strLt b a)) = true → (!(strLt c b)) = true → (!(strLt c a)) = true := by
  intro a b c h1 h2
  simp only [Bool.not_eq_eq_eq_not, Bool.not_true] at h1 h2 ⊢
  cases hbc : strLt b c with
  | false =>
    rw [strLt_connex h2 hbc]
    exact h1
  | true =>
    cases hca : strLt c a with
    | false => rfl
    | true => rw [strLt_trans hbc hca] at h1; exact h1

/-- The keys of a `groupby` are strictly ascending. -/
theorem groupKeys_pairwise (l : List String) :
    (groupKeys l).Pairwise (fun a b => strLt a b = true) := by
  have hs : (groupKeys l).Pairwise (fun a b => (!(strLt b a)) = true) :=
    isort_pairwise (fun a b => !(strLt b a)) groupKeys_total
      groupKeys_letrans (firstDedup l)
  have hn : (groupKeys l).Nodup :=
    ((isort_perm _ _).nodup_iff).mpr (nodup_firstDedup l)
  refine (hs.and hn).imp ?_
  rintro a b ⟨hle, hne⟩
  simp only [Bool.not_eq_eq_eq_not, Bool.not_true] at hle
  cases hab : strLt a b with
  | true => rfl
  | false => exact absurd (strLt_connex hab hle) hne

theorem lookup_keyed_none {β : Type} (f : String → β) {keys : List String}
    {k : String} (h : k ∉ keys) :
    List.lookup k (keys.map (fun x => (x, f x))) = none := by
  induction keys with
  | nil => rfl
  | cons x xs ih =>
    simp only [List.map_cons, List.lookup]
    have hkx : (k == x) = false := by
      simp only [List.mem_cons] at h
      simp only [beq_eq_false_iff_ne, ne_eq]
      exact fun hx => h (Or.inl hx)
    rw [hkx]
    exact ih (fun hk => h (List.mem_cons.mpr (Or.inr hk)))

theorem lookup_keyed_some {β : Type} (f : String → β) {keys : List String}
    {k : String} (h : k ∈ keys) :
    List.lookup k (keys.map (fun x => (x, f x))) = some (f k) := by
  induction keys with
  | nil => simp at h
  | cons x xs ih =>
    simp only [List.map_cons, List.lookup]
    by_cases hkx : k = x
    · subst hkx
      simp
    · have : (k == x) = false := by simp [hkx]
      rw [this]
      exact ih (by
        rcases List.mem_cons.mp h with h1 | h1
        · exact absurd h1 hkx
        · exact h1)

theorem lookup_keyed_inv {β : Type} (f : String → β) {keys : List String}
    {k : String} {v : β}
    (h : List.lookup k (keys.map (fun x => (x, f x))) = some v) :
    k ∈ keys ∧ v = f k := by
  induction keys with
  | nil => simp [List.lookup] at h
  | cons x xs ih =>
    simp only [List.map_cons, List.lookup] at h
    by_cases hkx : k = x
    · subst hkx
      simp only [beq_self_eq_true] at h
      exact ⟨by simp, by simpa using h.symm⟩
    · have hb : (k == x) = false := by simp [hkx]
      rw [hb] at h
      rcases ih h with ⟨h1, h2⟩
      exact ⟨List.mem_cons.mpr (Or.inr h1), h2⟩

theorem rhe_intCast (n : ℤ) : rhe (n : ℚ) = n := by
  have hf : ratFloor (n : ℚ) = n := by
    simp [ratFloor, Rat.num_intCast, Rat.den_intCast, Int.fdiv_one]
  simp only [rhe, hf]
  norm_num

theorem round2_natCast (n : ℕ) : round2 (n : ℚ) = (n : ℚ) := by
  have h1 : (n : ℚ) * 100 = ((n * 100 : ℕ) : ℚ) := by push_cast; ring
  have h2 : rhe ((n : ℚ) * 100) = (n * 100 : ℕ) := by
    rw [h1]
    exact_mod_cast rhe_intCast ((n * 100 : ℕ) : ℤ)
  rw [round2, h2]
  push_cast
  field_simp

/-- The percentage pipeline of report.py lines 172-178: element-wise
division, `* 100`, `round(2)`, `fillna(0)`; the denominator-zero case
gives 0 exactly when the numerator is 0 as well. -/
theorem pct_pipeline_zero {a b : ℕ} (hb : b = 0) (ha : a = 0) :
    PVal.fillna0 (PVal.round2p (PVal.scale100 (pdDiv (a : ℚ) (b : ℚ)))) =
      PVal.val 0 := by
  subst hb; subst ha
  simp [pdDiv, PVal.scale100, PVal.round2p, PVal.fillna0]

theorem pct_pipeline_pos {a b : ℕ} (hb : b ≠ 0) :
    PVal.fillna0 (PVal.round2p (PVal.scale100 (pdDiv (a : ℚ) (b : ℚ)))) =
      PVal.val (round2 ((a : ℚ) / (b : ℚ) * 100)) := by
  have hb' : (b : ℚ) ≠ 0 := Nat.cast_ne_zero.mpr hb
  simp [pdDiv, hb', PVal.scale100, PVal.round2p, PVal.fillna0]

theorem mem_pdSortDesc [LinearOrder β] {key : α → β} {l : List α} {a : α} :
    a ∈ pdSortDesc key l ↔ a ∈ l := (pdSortDesc_perm key l).mem_iff

theorem filter_eid_pos {past : List PastClass} {k : String}
    (h : k ∈ past.map PastClass.employee_id) :
    0 < (past.filter (fun r => r.employee_id == k)).length := by
  obtain ⟨p, hp, hk⟩ := List.mem_map.mp h
  exact List.length_pos.mpr (List.ne_nil_of_mem
    (List.mem_filter.mpr ⟨hp, by simp [hk]⟩))

theorem filter_meid_pos {missed : List MissedClass} {k : String}
    (h : k ∈ missed.map MissedClass.employee_id) :
    0 < (missed.filter (fun r => r.employee_id == k)).length := by
  obtain ⟨p, hp, hk⟩ := List.mem_map.mp h
  exact List.length_pos.mpr (List.ne_nil_of_mem
    (List.mem_filter.mpr ⟨hp, by simp [hk]⟩))

theorem pastMetrics_lookup_none {past : List PastClass} {k : String}
    (h : k ∉ past.map PastClass.employee_id) :
    List.lookup k (pastMetrics past) = none := by
  rw [pastMetrics]
  exact lookup_keyed_none _ (fun hm => h (mem_groupKeys.mp hm))

theorem pastMetrics_lookup_inv {past : List PastClass} {k : String}
    {v : Nat × Nat} (h : List.lookup k (pastMetrics past) = some v) :
    k ∈ past.map PastClass.employee_id ∧
      v = ((past.filter (fun r => r.employee_id == k)).length,
           past.countP (fun r => r.employee_id == k && r.entry_type == "late")) := by
  rw [pastMetrics] at h
  obtain ⟨hm, hv⟩ := lookup_keyed_inv _ h
  exact ⟨mem_groupKeys.mp hm, hv⟩

theorem missedMetrics_lookup_none {missed : List MissedClass} {k : String}
    (h : k ∉ missed.map MissedClass.employee_id) :
    List.lookup k (missedMetrics missed) = none := by
  rw [missedMetrics]
  exact lookup_keyed_none _ (fun hm => h (mem_groupKeys.mp hm))

theorem missedMetrics_lookup_inv {missed : List MissedClass} {k : String}
    {v : Nat × Nat} (h : List.lookup k (missedMetrics missed) = some v) :
    k ∈ missed.map MissedClass.employee_id ∧
      v = ((missed.filter (fun r => r.employee_id == k)).length,
           missed.countP (fun r => r.employee_id == k && r.makeup_done)) := by
  rw [missedMetrics] at h
  obtain ⟨hm, hv⟩ := lookup_keyed_inv _ h
  exact ⟨mem_groupKeys.mp hm, hv⟩

theorem pct_nofill_pos {a b : ℕ} (hb : b ≠ 0) :
    PVal.round2p (PVal.scale100 (pdDiv (a : ℚ) (b : ℚ))) =
      PVal.val (round2 ((a : ℚ) / (b : ℚ) * 100)) := by
  have hb' : (b : ℚ) ≠ 0 := Nat.cast_ne_zero.mpr hb
  simp [pdDiv, hb', PVal.scale100, PVal.round2p]

/-- Every row of `all_teachers_metrics` is `teacherRow` of a roster
teacher, and its percentage cells are finite rationals: `0/0` becomes
`NaN` and is `fillna(0)`-ed, and a zero denominator forces a zero
numerator because groupby rows count nonempty groups. -/
theorem teacherRow_percentages (past : List PastClass)
    (missed : List MissedClass) (t : Teacher) :
    (∃ q, (teacherRow past missed t).late_percentage = PVal.val q) ∧
    (∃ q, (teacherRow past missed t).makeup_percentage = PVal.val q) ∧
    ((teacherRow past missed t).total_classes = 0 →
      (teacherRow past missed t).late_percentage = PVal.val 0) ∧
    ((teacherRow past missed t).missed_classes = 0 →
      (teacherRow past missed t).makeup_percentage = PVal.val 0) := by
  have hpast : (∃ q, (teacherRow past missed t).late_percentage = PVal.val q) ∧
      ((teacherRow past missed t).total_classes = 0 →
        (teacherRow past missed t).late_percentage = PVal.val 0) := by
    cases hl : List.lookup t.employee_id (pastMetrics past) with
    | none =>
      simp only [teacherRow, hl, Option.getD_none]
      rw [pct_pipeline_zero rfl rfl]
      exact ⟨⟨0, rfl⟩, fun _ => rfl⟩
    | some v =>
      obtain ⟨hm, hv⟩ := pastMetrics_lookup_inv hl
      have hpos : v.1 ≠ 0 := by
        rw [hv]
        exact Nat.not_eq_zero_of_lt (filter_eid_pos hm)
      simp only [teacherRow, hl, Option.getD_some]
      rw [pct_pipeline_pos hpos]
      exact ⟨⟨_, rfl⟩, fun h0 => absurd h0 hpos⟩
  have hmissed : (∃ q, (teacherRow past missed t).makeup_percentage = PVal.val q) ∧
      ((teacherRow past missed t).missed_classes = 0 →
        (teacherRow past missed t).makeup_percentage = PVal.val 0) := by
    cases hl : List.lookup t.employee_id (missedMetrics missed) with
    | none =>
      simp only [teacherRow, hl, Option.getD_none]
      rw [pct_pipeline_zero rfl rfl]
      exact ⟨⟨0, rfl⟩, fun _ => rfl⟩
    | some v =>
      obtain ⟨hm, hv⟩ := missedMetrics_lookup_inv hl
      have hpos : v.1 ≠ 0 := by
        rw [hv]
        exact Nat.not_eq_zero_of_lt (filter_meid_pos hm)
      simp only [teacherRow, hl, Option.getD_some]
      rw [pct_pipeline_pos hpos]
      exact ⟨⟨_, rfl⟩, fun h0 => absurd h0 hpos⟩
  exact ⟨hpast.1, hmissed.1, hpast.2, hmissed.2⟩

theorem mem_teacherMissedRows {missed : List MissedClass}
    {teachers : List Teacher} {r : MissedTeacherRow}
    (h : r ∈ teacherMissedRows missed teachers) :
    ∃ q, r.makeup_percentage = PVal.val q := by
  rw [teacherMissedRows] at h
  obtain ⟨k, hk, hr⟩ := List.mem_flatMap.mp h
  obtain ⟨t, _, rfl⟩ := List.mem_map.mp hr
  have hmem : k ∈ (validMissed missed teachers).map MissedClass.employee_id :=
    mem_groupKeys.mp hk
  have hpos : ((validMissed missed teachers).filter
      (fun m => m.employee_id == k)).length ≠ 0 := by
    obtain ⟨p, hp, hpk⟩ := List.mem_map.mp hmem
    exact Nat.not_eq_zero_of_lt (List.length_pos.mpr (List.ne_nil_of_mem
      (List.mem_filter.mpr ⟨hp, by simp [hpk]⟩)))
  exact ⟨_, pct_nofill_pos hpos⟩

/-- C1: whenever the relevant denominator is 0 (no sessions overall, no
roster missed sessions overall, no sessions or no missed sessions for a
roster teacher), the corresponding percentage written into the aggregate
document is 0; and every percentage cell of the document is a finite
rational — never `NaN`, never an error. -/
theorem aggregator_zero_denominators_give_zero
    (past : List PastClass) (missed : List MissedClass)
    (teachers : List Teacher) :
    (past.length = 0 → (pastClassesAnalysis past).late_percentage = 0) ∧
    ((validMissed missed teachers).length = 0 →
      (missedClassesAnalysis missed teachers).makeup_percentage = 0) ∧
    (∀ r ∈ (teacherUsageAnalysis past missed teachers).all_teachers_metrics,
      (∃ q, r.late_percentage = PVal.val q) ∧
      (∃ q, r.makeup_percentage = PVal.val q) ∧
      (r.total_classes = 0 → r.late_percentage = PVal.val 0) ∧
      (r.missed_classes = 0 → r.makeup_percentage = PVal.val 0)) ∧
    (∀ r ∈ (missedClassesAnalysis missed teachers).teachers_with_most_missed,
      ∃ q, r.makeup_percentage = PVal.val q) := by
  refine ⟨?_, ?_, ?_, ?_⟩
  · intro h
    simp [pastClassesAnalysis, h]
  · intro h
    simp [missedClassesAnalysis, h]
  · intro r hr
    have hr' : r ∈ teachers.map (teacherRow past missed) := by
      simp only [teacherUsageAnalysis, allTeachersMetrics] at hr
      exact mem_pdSortDesc.mp hr
    obtain ⟨t, _, rfl⟩ := List.mem_map.mp hr'
    exact teacherRow_percentages past missed t
  · intro r hr
    have hr' : r ∈ teacherMissedRows missed teachers := by
      simp only [missedClassesAnalysis, nlargestBy] at hr
      exact (isort_perm _ _).mem_iff.mp (List.mem_of_mem_take hr)
    exact mem_teacherMissedRows hr'

/-- C2: with a duplicate-free roster, `all_teachers_metrics` has exactly
one row per roster teacher (zero-activity teachers included, with
zero-filled count columns), and no row for an identifier outside the
roster. -/
theorem roster_join_exactly_once (past : List PastClass)
    (missed : List MissedClass) (teachers : List Teacher)
    (hnd : (teachers.map Teacher.employee_id).Nodup) :
    (∀ t ∈ teachers,
      (teacherUsageAnalysis past missed teachers).all_teachers_metrics.countP
        (fun r => r.employee_id == t.employee_id) = 1) ∧
    (∀ r ∈ (teacherUsageAnalysis past missed teachers).all_teachers_metrics,
      r.employee_id ∈ teachers.map Teacher.employee_id) ∧
    (∀ r ∈ (teacherUsageAnalysis past missed teachers).all_teachers_metrics,
      r.employee_id ∉ past.map PastClass.employee_id →
        r.total_classes = 0 ∧ r.late_classes = 0) ∧
    (∀ r ∈ (teacherUsageAnalysis past missed teachers).all_teachers_metrics,
      r.employee_id ∉ missed.map MissedClass.employee_id →
        r.missed_classes = 0 ∧ r.makeup_classes = 0) := by
  have hperm : (teacherUsageAnalysis past missed teachers).all_teachers_metrics.Perm
      (teachers.map (teacherRow past missed)) := by
    simp only [teacherUsageAnalysis, allTeachersMetrics]
    exact pdSortDesc_perm _ _
  refine ⟨?_, ?_, ?_, ?_⟩
  · intro t ht
    rw [hperm.countP_eq, List.countP_map]
    have heq : ((fun r => r.employee_id == t.employee_id) ∘ teacherRow past missed)
        = fun s => s.employee_id == t.employee_id := by
      funext s
      rfl
    rw [heq]
    have := List.count_eq_one_of_mem hnd
      (List.mem_map.mpr ⟨t, ht, rfl⟩)
    rw [List.count_eq_countP] at this
    rw [List.countP_map] at this
    exact this
  · intro r hr
    obtain ⟨t, ht, rfl⟩ := List.mem_map.mp (hperm.mem_iff.mp hr)
    exact List.mem_map.mpr ⟨t, ht, rfl⟩
  · intro r hr hnot
    obtain ⟨t, ht, rfl⟩ := List.mem_map.mp (hperm.mem_iff.mp hr)
    have hl : List.lookup t.employee_id (pastMetrics past) = none :=
      pastMetrics_lookup_none hnot
    constructor <;> simp [teacherRow, hl]
  · intro r hr hnot
    obtain ⟨t, ht, rfl⟩ := List.mem_map.mp (hperm.mem_iff.mp hr)
    have hl : List.lookup t.employee_id (missedMetrics missed) = none :=
      missedMetrics_lookup_none hnot
    constructor <;> simp [teacherRow, hl]

/-- C6 (amended): `all_courses` is sorted descending by `class_count`;
courses with equal counts appear in descending lexicographic order of
their course code (the `groupby` lists codes ascending and the
descending `sort_values` reverses the stably-sorted frame), not in input
occurrence order. -/
theorem courses_sorted_desc_ties_desc_code (past : List PastClass) :
    (pastClassesAnalysis past).all_courses.Pairwise (fun a b =>
      b.class_count ≤ a.class_count ∧
      (a.class_count ≤ b.class_count → strLt b.course_code a.course_code = true)) := by
  have hkeys : ((groupKeys (past.map PastClass.course_code)).map
      (courseRow past)).Pairwise
      (fun a b => strLt a.course_code b.course_code = true) := by
    rw [List.pairwise_map]
    exact groupKeys_pairwise _
  have htie := isort_pairwise_tie
    (fun a b : CourseRow => decide (a.class_count ≤ b.class_count))
    (fun a b => by
      rcases Nat.le_total a.class_count b.class_count with h | h
      · exact Or.inl (decide_eq_true h)
      · exact Or.inr (decide_eq_true h))
    (fun a b c h1 h2 => decide_eq_true
      (Nat.le_trans (of_decide_eq_true h1) (of_decide_eq_true h2)))
    hkeys
  simp only [pastClassesAnalysis, pdSortDesc]
  rw [List.pairwise_reverse]
  refine htie.imp ?_
  rintro a b ⟨h1, h2⟩
  exact ⟨of_decide_eq_true h1, fun hba => h2 (decide_eq_true hba)⟩

/-- C3: the `TOTAL` row appended to the rendered instructor table sums
each count column over the individual rows (equivalently, over the
unsorted metrics, since the sort is a permutation), and its late
percentage is `(sum of late) / (sum of total) * 100` — computed from the
column sums, not from the per-row percentages. -/
theorem instructor_table_totals_row (rows : List TeacherRow) :
    teacherTableRows rows = tableIndividualRows rows ++ [tableTotalsRow rows] ∧
    (tableTotalsRow rows).total_classes =
      ((tableIndividualRows rows).map TableRow.total_classes).sum ∧
    (tableTotalsRow rows).late_classes =
      ((tableIndividualRows rows).map TableRow.late_classes).sum ∧
    (tableTotalsRow rows).missed_classes =
      ((tableIndividualRows rows).map TableRow.missed_classes).sum ∧
    (tableTotalsRow rows).total_classes = (rows.map TeacherRow.total_classes).sum ∧
    ((rows.map TeacherRow.total_classes).sum ≠ 0 →
      (tableTotalsRow rows).late_percentage =
        PVal.val (((rows.map TeacherRow.late_classes).sum : ℚ) /
          ((rows.map TeacherRow.total_classes).sum : ℚ) * 100)) := by
  have hperm : (pdSortDesc TeacherRow.total_classes rows).Perm rows :=
    pdSortDesc_perm _ _
  have hsum : ∀ f : TeacherRow → ℕ,
      ((pdSortDesc TeacherRow.total_classes rows).map f).sum = (rows.map f).sum :=
    fun f => (hperm.map f).sum_eq
  refine ⟨rfl, ?_, ?_, ?_, ?_, ?_⟩
  · simp [tableTotalsRow, tableIndividualRows, List.map_map, Function.comp_def]
  · simp [tableTotalsRow, tableIndividualRows, List.map_map, Function.comp_def]
  · simp [tableTotalsRow, tableIndividualRows, List.map_map, Function.comp_def]
  · exact hsum TeacherRow.total_classes
  · intro h0
    have hlate := hsum TeacherRow.late_classes
    have htot := hsum TeacherRow.total_classes
    have h0' : ((rows.map TeacherRow.total_classes).sum : ℚ) ≠ 0 :=
      Nat.cast_ne_zero.mpr h0
    simp only [tableTotalsRow, hlate, htot, pdDiv, h0', if_false, PVal.scale100]

/-- C4 (code bug): for every input, `_create_visualizations` raises
`KeyError` on `report['teacher_usage']['usage_breakdown']` — a key the
teacher-usage analysis never emits — so the composite chart image is
never written; only the JSON document is produced. -/
theorem visualization_step_always_raises (past : List PastClass)
    (missed : List MissedClass) (teachers : List Teacher) :
    (generateComprehensiveReport past missed teachers).files =
      ["comprehensive_report.json"] ∧
    (generateComprehensiveReport past missed teachers).vizResult =
      Except.error "KeyError: usage_breakdown" ∧
    "usage_visualization.png" ∉
      (generateComprehensiveReport past missed teachers).files := by
  have hcv : createVisualizations (comprehensiveReport past missed teachers) =
      Except.error "KeyError: usage_breakdown" := rfl
  rw [generateComprehensiveReport]
  rw [hcv]
  exact ⟨rfl, rfl, by simp⟩

/-- C7: the top-level `try`/`except` around the renderer pipeline — if
every step of a prefix succeeds and the next step raises, the run stops
there, the exception message is reported, later steps contribute no
files, and the files written by the prefix are kept (no rollback). -/
theorem runSteps_stops_at_first_error (pre post : List RStep) (s : RStep)
    (r : Report) (acc : List String) (e : String)
    (hpre : (runSteps pre r acc).2 = none)
    (hs : s r (runSteps pre r acc).1 = Except.error e) :
    runSteps (pre ++ s :: post) r acc = ((runSteps pre r acc).1, some e) := by
  induction pre generalizing acc with
  | nil =>
    simp only [runSteps, List.nil_append] at hpre hs ⊢
    simp only [runSteps, hs]
  | cons p pre2 ih =>
    cases hp : p r acc with
    | error e0 =>
      simp only [runSteps, hp] at hpre
      simp at hpre
    | ok fs =>
      simp only [runSteps, List.cons_append, hp] at hpre hs ⊢
      exact ih _ hpre hs

/-- C5 (code bug): on every aggregate document the renderer stops with an
error no later than `plot_course_durations` (whose `class_type` column
the document does not have), so neither `course_durations.png` nor the
two report documents are ever written. -/
theorem renderer_never_writes_report_documents (r : Report) :
    (generateAllPlots r).2.isSome = true ∧
    "final_report.pdf" ∉ (generateAllPlots r).1 ∧
    "teacher_metrics.pdf" ∉ (generateAllPlots r).1 ∧
    "course_durations.png" ∉ (generateAllPlots r).1 := by
  have hct : dictGet courseRecordKeys "class_type" =
      Except.error "KeyError: class_type" := rfl
  simp only [generateAllPlots, rendererSteps, runSteps, setupPlotStyle,
    List.append_nil, List.nil_append]
  cases h1 : plotClassDistribution r [] with
  | error e => simp [h1]
  | ok fs1 =>
    have hfs1 : fs1 = ["class_distribution.png"] := by
      rw [plotClassDistribution] at h1
      rcases ha : (r.past_classes.entry_type_distribution).lookup "on_time" with _ | v1 <;>
        rw [ha] at h1
      · cases h1
      rcases hb : (r.past_classes.entry_type_distribution).lookup "late" with _ | v2 <;>
        rw [hb] at h1
      · cases h1
      rcases hc : (r.past_classes.entry_type_distribution).lookup "EXTRA_CLASS" with _ | v3 <;>
        rw [hc] at h1
      · cases h1
      · simpa using h1.symm
    subst hfs1
    simp only [h1]
    cases h2 : plotTopCourses r ["class_distribution.png"] with
    | error e => simp [h2]
    | ok fs2 =>
      have hfs2 : fs2 = ["top_10_courses.png"] := by
        rw [plotTopCourses] at h2
        by_cases hc : r.past_classes.all_courses = []
        · rw [if_pos hc] at h2
          cases h2
        · rw [if_neg hc] at h2
          simpa using h2.symm
      subst hfs2
      have h3 : plotCourseDurations r
          ["class_distribution.png", "top_10_courses.png"] =
          Except.error "KeyError: class_type" := rfl
      simp [h2, h3]

/-- C10: the aggregate computation is a pure function of the three input
tables — two runs on equal inputs return equal outputs (the embedding has
no time, randomness or environment dependence, mirroring the source,
whose analyses read nothing but the three frames). -/
theorem aggregator_deterministic (p1 p2 : List PastClass)
    (m1 m2 : List MissedClass) (t1 t2 : List Teacher)
    (hp : p1 = p2) (hm : m1 = m2) (ht : t1 = t2) :
    generateComprehensiveReport p1 m1 t1 = generateComprehensiveReport p2 m2 t2 := by
  subst hp
  subst hm
  subst ht
  rfl

/-- A roster teacher used by the concrete test inputs. -/
def exTeacher : Teacher :=
  { employee_id := "11", first_name := "Ada", last_name := "Lovelace" }

/-- A second roster teacher with a distinct identifier. -/
def exTeacher2 : Teacher :=
  { employee_id := "22", first_name := "Alan", last_name := "Turing" }

/-- The 3-row session table with entry types on-time, late, on-time. -/
def exPast3 : List PastClass :=
  [{ id := 1, course_code := "CSE101", employee_id := "11",
     entry_type := "on_time", start_time := 0, end_time := 60 },
   { id := 2, course_code := "CSE101", employee_id := "11",
     entry_type := "late", start_time := 0, end_time := 60 },
   { id := 3, course_code := "CSE102", employee_id := "11",
     entry_type := "on_time", start_time := 0, end_time := 90 }]

/-- Two missed sessions for teacher `11`, exactly one made up. -/
def exMissed2 : List MissedClass :=
  [{ id := 1, course_code := "CSE101", employee_id := "11", makeup_done := true },
   { id := 2, course_code := "CSE101", employee_id := "11", makeup_done := false }]

theorem aggregator_deterministic_witness :
    generateComprehensiveReport exPast3 exMissed2 [exTeacher] =
      generateComprehensiveReport exPast3 exMissed2 [exTeacher] :=
  aggregator_deterministic _ _ _ _ _ _ rfl rfl rfl

/-- C8: for the 3-row table with entry types on-time/late/on-time, the
distribution reports 2 on-time and 1 late, and the late percentage is
within 0.01 of 33.33. -/
theorem entry_distribution_two_one_third_late :
    (pastClassesAnalysis exPast3).entry_type_distribution.lookup "on_time" =
      some 2 ∧
    (pastClassesAnalysis exPast3).entry_type_distribution.lookup "late" =
      some 1 ∧
    |(pastClassesAnalysis exPast3).late_percentage - 3333/100| ≤ 1/100 := by
  have hd : (pastClassesAnalysis exPast3).entry_type_distribution =
      [("on_time", 2), ("late", 1)] := rfl
  have hp : (pastClassesAnalysis exPast3).late_percentage =
      ((1 : ℕ) : ℚ) / ((3 : ℕ) : ℚ) * 100 := rfl
  refine ⟨by rw [hd]; rfl, by rw [hd]; rfl, ?_⟩
  rw [hp]
  push_cast
  rw [abs_le]
  constructor <;> norm_num

/-- C9: one roster teacher with 0 sessions and 2 missed sessions of
which 1 was made up is reported with `makeup_percentage = 50.0`, both in
`all_teachers_metrics` and in `teachers_with_most_missed`. -/
theorem zero_sessions_two_missed_fifty_percent :
    ((teacherUsageAnalysis [] exMissed2 [exTeacher]).all_teachers_metrics.map
      (fun r => (r.employee_id, r.total_classes, r.missed_classes,
        r.makeup_classes, r.makeup_percentage))) =
      [("11", 0, 2, 1, PVal.val 50)] ∧
    ((missedClassesAnalysis exMissed2 [exTeacher]).teachers_with_most_missed.map
      (fun r => (r.employee_id, r.missed_count, r.makeup_done,
        r.makeup_percentage))) =
      [("11", 2, 1, PVal.val 50)] := by
  have h50 : ((1 : ℕ) : ℚ) / ((2 : ℕ) : ℚ) * 100 = ((50 : ℕ) : ℚ) := by
    push_cast
    norm_num
  have hround : round2 (((1 : ℕ) : ℚ) / ((2 : ℕ) : ℚ) * 100) = 50 := by
    rw [h50, round2_natCast]
    norm_num
  constructor
  · have e1 : (teacherUsageAnalysis [] exMissed2 [exTeacher]).all_teachers_metrics =
        [teacherRow [] exMissed2 exTeacher] := rfl
    have hpct : (teacherRow [] exMissed2 exTeacher).makeup_percentage =
        PVal.val 50 := by
      have e2 : (teacherRow [] exMissed2 exTeacher).makeup_percentage =
          PVal.fillna0 (PVal.round2p (PVal.scale100
            (pdDiv ((1 : ℕ) : ℚ) ((2 : ℕ) : ℚ)))) := rfl
      rw [e2, pct_pipeline_pos (by norm_num), hround]
    rw [e1, List.map_cons, List.map_nil]
    have e3 : (teacherRow [] exMissed2 exTeacher).employee_id = "11" := rfl
    have e4 : (teacherRow [] exMissed2 exTeacher).total_classes = 0 := rfl
    have e5 : (teacherRow [] exMissed2 exTeacher).missed_classes = 2 := rfl
    have e6 : (teacherRow [] exMissed2 exTeacher).makeup_classes = 1 := rfl
    rw [e3, e4, e5, e6, hpct]
  · have e1 : (missedClassesAnalysis exMissed2 [exTeacher]).teachers_with_most_missed =
        [{ employee_id := "11", first_name := "Ada", last_name := "Lovelace",
           missed_count := 2, makeup_done := 1,
           makeup_percentage := PVal.round2p (PVal.scale100
             (pdDiv ((1 : ℕ) : ℚ) ((2 : ℕ) : ℚ))) }] := rfl
    rw [e1, List.map_cons, List.map_nil]
    rw [pct_nofill_pos (by norm_num), hround]

/-- Two single-session courses whose codes occur in the input in the
order `AAA`, `BBB`. -/
def exTiePast : List PastClass :=
  [{ id := 1, course_code := "AAA", employee_id := "11",
     entry_type := "on_time", start_time := 0, end_time := 60 },
   { id := 2, course_code := "BBB", employee_id := "11",
     entry_type := "on_time", start_time := 0, end_time := 60 }]

/-- C6 (counterexample): on two courses with equal class counts whose
codes first occur in the input in the order `AAA`, `BBB`, the aggregate
document lists them as `BBB`, `AAA` — the tie is not broken by input
occurrence order. -/
theorem course_tie_not_input_order :
    exTiePast.map PastClass.course_code = ["AAA", "BBB"] ∧
    (pastClassesAnalysis exTiePast).all_courses.map CourseRow.course_code =
      ["BBB", "AAA"] := ⟨rfl, rfl⟩

theorem aggregator_zero_denominators_give_zero_witness :
    (pastClassesAnalysis []).late_percentage = 0 ∧
    (missedClassesAnalysis [] [exTeacher]).makeup_percentage = 0 ∧
    (teacherRow [] [] exTeacher).late_percentage = PVal.val 0 ∧
    (teacherRow [] [] exTeacher).makeup_percentage = PVal.val 0 := by
  obtain ⟨h1, h2, h3, _⟩ :=
    aggregator_zero_denominators_give_zero [] [] [exTeacher]
  have hm : teacherRow [] [] exTeacher ∈
      (teacherUsageAnalysis [] [] [exTeacher]).all_teachers_metrics := by
    show teacherRow [] [] exTeacher ∈ [teacherRow [] [] exTeacher]
    simp
  obtain ⟨_, _, hz1, hz2⟩ := h3 _ hm
  exact ⟨h1 rfl, h2 rfl, hz1 rfl, hz2 rfl⟩

/-- The two-teacher roster used by the C2 witness. -/
def exRoster : List Teacher := [exTeacher, exTeacher2]

theorem roster_join_exactly_once_witness :
    (teacherUsageAnalysis exPast3 exMissed2 exRoster).all_teachers_metrics.countP
      (fun r => r.employee_id == exTeacher2.employee_id) = 1 ∧
    (teacherUsageAnalysis exPast3 exMissed2 exRoster).all_teachers_metrics.countP
      (fun r => r.employee_id == exTeacher.employee_id) = 1 := by
  obtain ⟨h1, _, _, _⟩ := roster_join_exactly_once exPast3 exMissed2 exRoster
    (by decide)
  exact ⟨h1 exTeacher2 (by simp [exRoster]), h1 exTeacher (by simp [exRoster])⟩

/-- Metrics rows used by the C3 witness: one teacher with 1 class (1
late), one with 3 classes (0 late). -/
def exRowA : TeacherRow :=
  { employee_id := "11", first_name := "Ada", last_name := "Lovelace"
    total_classes := 1, late_classes := 1, missed_classes := 0
    makeup_classes := 0, late_percentage := PVal.val 100
    makeup_percentage := PVal.val 0 }

/-- Second metrics row for the C3 witness. -/
def exRowB : TeacherRow :=
  { employee_id := "22", first_name := "Alan", last_name := "Turing"
    total_classes := 3, late_classes := 0, missed_classes := 0
    makeup_classes := 0, late_percentage := PVal.val 0
    makeup_percentage := PVal.val 0 }

theorem instructor_table_totals_row_witness :
    (tableTotalsRow [exRowA, exRowB]).total_classes = 4 ∧
    (tableTotalsRow [exRowA, exRowB]).late_classes = 1 ∧
    (tableTotalsRow [exRowA, exRowB]).late_percentage = PVal.val 25 ∧
    PVal.val 25 ≠ PVal.val ((100 + 0) / 2 : ℚ) := by
  obtain ⟨_, _, _, _, h5, h6⟩ := instructor_table_totals_row [exRowA, exRowB]
  have hs : (([exRowA, exRowB].map TeacherRow.total_classes).sum : ℕ) = 4 := rfl
  have hl : (([exRowA, exRowB].map TeacherRow.late_classes).sum : ℕ) = 1 := rfl
  refine ⟨by rw [h5, hs], by
    have : (tableTotalsRow [exRowA, exRowB]).late_classes =
      (([exRowA, exRowB].map TeacherRow.late_classes).sum : ℕ) := rfl
    rw [this, hl], ?_, ?_⟩
  · have h6' := h6 (by rw [hs]; norm_num)
    rw [h6', hl, hs]
    norm_num
  · intro h
    have : (25 : ℚ) = (100 + 0) / 2 := congrArg (fun p => match p with
      | PVal.val q => q
      | _ => 0) h
    norm_num at this

/-- A well-formed aggregate document for the C7 witness: at least one
course, one instructor row, and all three entry types present. -/
def exReport : Report :=
  { past_classes :=
      { total_classes := 4, late_classes := 1, on_time_classes := 2
        late_percentage := 25
        entry_type_distribution :=
          [("on_time", 2), ("late", 1), ("EXTRA_CLASS", 1)]
        all_courses := [{ course_code := "CSE101", class_count := 4,
                          avg_duration := PVal.val 60 }] }
    missed_classes :=
      { total_missed_classes := 2, makeup_classes := 1
        makeup_percentage := 50
        missed_classes_by_course := [("CSE101", 2)]
        teachers_with_most_missed :=
          [{ employee_id := "11", first_name := "Ada",
             last_name := "Lovelace", missed_count := 2, makeup_done := 1,
             makeup_percentage := PVal.val 50 }] }
    teacher_usage :=
      { total_summary :=
          { total_teachers := 1, total_classes := 4, total_late_classes := 1
            total_missed_classes := 2, total_makeup_classes := 1 }
        all_teachers_metrics :=
          [{ employee_id := "11", first_name := "Ada",
             last_name := "Lovelace", total_classes := 4, late_classes := 1
             missed_classes := 2, makeup_classes := 1
             late_percentage := PVal.val 25
             makeup_percentage := PVal.val 50 }] } }

theorem runSteps_stops_at_first_error_witness :
    generateAllPlots exReport =
      (["class_distribution.png", "top_10_courses.png"],
        some "KeyError: class_type") := by
  have h := runSteps_stops_at_first_error
    [setupPlotStyle, plotClassDistribution, plotTopCourses]
    [plotOntimeVsLate, plotTopTeachers, plotMostMissedClasses,
     generateTeacherTableStep, generateFinalReportStep]
    plotCourseDurations exReport [] "KeyError: class_type" rfl rfl
  exact h
